import Mathlib

/-!
Verification of the King Solarman backend webhook service (`src/server.js`).

The service is a single Express process: a PayPal webhook ingestion handler
that normalizes payment events into order records stored in one in-memory
`Map`, plus read-only query endpoints. We embed the handlers as pure Lean
functions over an explicit table state.

Modelling conventions:
* JSON object bodies are modelled by structures with `Option` fields
  (`none` = the field is absent / `undefined`).
* Leaf payload values that the code only passes through verbatim
  (`amount`, `payer`, `items`, `create_time`) are modelled as strings.
* JavaScript truthiness on such values: `undefined`, `null` and the empty
  string are falsy, every other string is truthy; `truthyStr` captures this
  for `Option String`.
* The `orders` `Map` is modelled as an association list; `mapSet` mirrors
  `Map.prototype.set` (update in place if the key exists, append otherwise)
  and `mapGet` mirrors `Map.prototype.get`.
* `Date.now()` is modelled by an explicit `now : Nat` parameter; the
  template-literal stringification of that number is `natDecimalStr`.
* Bracket lookup on the object literal `statusMap` traverses the
  prototype chain: for a key that is not one of the five own properties
  but is the name of an `Object.prototype` member (`constructor`,
  `toString`, `__proto__`, …) it yields that inherited member, a truthy
  non-string value. `StatusVal` distinguishes string statuses from such
  inherited members, and `lookupEvent` performs the two-level lookup.
-/

set_option autoImplicit false

namespace KingSolarman

/-- `resource.supplementary_data.related_ids` of a webhook payload. -/
structure RelatedIds where
  order_id : Option String := none
deriving Repr, DecidableEq

/-- `resource.supplementary_data` of a webhook payload. -/
structure SupplementaryData where
  related_ids : Option RelatedIds := none
deriving Repr, DecidableEq

/-- One element of `purchase_units[...].payments.captures`. -/
structure Capture where
  id : Option String := none
deriving Repr, DecidableEq

/-- `purchase_units[...].payments`. -/
structure Payments where
  captures : Option (List Capture) := none
deriving Repr, DecidableEq

/-- One element of `resource.purchase_units`. `items` is passed through
verbatim by the code, so we model it as an opaque string blob. -/
structure PurchaseUnit where
  payments : Option Payments := none
  items : Option String := none
deriving Repr, DecidableEq

/-- The `resource` object of a PayPal webhook payload, with the fields the
handler reads. `amount` and `payer` are passed through verbatim. -/
structure Resource where
  id : Option String := none
  supplementary_data : Option SupplementaryData := none
  purchase_units : Option (List PurchaseUnit) := none
  amount : Option String := none
  payer : Option String := none
deriving Repr, DecidableEq

/-- A parsed webhook request body (`req.body` after `express.json()`),
restricted to the fields the handler reads. -/
structure WebhookPayload where
  event_type : Option String := none
  resource : Option Resource := none
  create_time : Option String := none
deriving Repr, DecidableEq

/-- JavaScript truthiness of an optional string value: `undefined` and the
empty string are falsy. -/
def truthyStr : Option String → Bool
  | none => false
  | some s => decide (s ≠ "")

/-- The JavaScript `a || d` idiom on an optional string with a string
default: the value if truthy, otherwise the default. -/
def jsOrStr (o : Option String) (d : String) : String :=
  if truthyStr o then o.getD "" else d

/-- Decimal digit characters of a natural number, most significant first
(the JavaScript template-literal stringification of `Date.now()`). -/
def natDecimalChars : Nat → List Char → List Char
  | n, acc =>
    let c := Char.ofNat (48 + n % 10)
    if _h : n < 10 then c :: acc
    else natDecimalChars (n / 10) (c :: acc)
decreasing_by exact Nat.div_lt_self (Nat.lt_of_lt_of_le (by omega) (Nat.le_of_not_lt _h)) (by omega)

/-- Decimal string of a natural number. -/
def natDecimalStr (n : Nat) : String :=
  ⟨natDecimalChars n []⟩

/-- `resource.supplementary_data?.related_ids?.order_id` (lines 64–65, 94, 100). -/
def relatedOrderId (r : Resource) : Option String :=
  (r.supplementary_data.bind (·.related_ids)).bind (·.order_id)

/-- `resource.purchase_units?.[0]?.payments?.captures?.[0]?.id` (lines 66–67). -/
def firstCaptureId (r : Resource) : Option String :=
  ((((r.purchase_units.bind List.head?).bind (·.payments)).bind
    (·.captures)).bind List.head?).bind (·.id)

/-- `resource.purchase_units?.[0]?.items` (line 92). -/
def firstUnitItems (r : Resource) : Option String :=
  (r.purchase_units.bind List.head?).bind (·.items)

/-- The order-id extraction chain of the webhook handler (lines 63–70):
related order id, else first capture id, else `resource.id`, else the
synthesized `unknown_` id from the current epoch milliseconds. -/
def extractOrderId (r : Resource) (now : Nat) : String :=
  if truthyStr (relatedOrderId r) then (relatedOrderId r).getD ""
  else if truthyStr (firstCaptureId r) then (firstCaptureId r).getD ""
  else jsOrStr r.id ("unknown_" ++ natDecimalStr now)

/-- The five-entry event-type lookup table `statusMap` (lines 73–79). -/
def statusMap : List (String × String) :=
  [("PAYMENT.CAPTURE.COMPLETED", "COMPLETED"),
   ("PAYMENT.CAPTURE.PENDING", "PENDING"),
   ("PAYMENT.CAPTURE.DENIED", "DENIED"),
   ("CHECKOUT.ORDER.APPROVED", "APPROVED"),
   ("CHECKOUT.ORDER.COMPLETED", "COMPLETED")]

/-- A JavaScript value that `statusMap[eventType] || 'UNKNOWN'` can
produce: a status string, or a member inherited from `Object.prototype`
(a built-in function, or the `__proto__` accessor's result), which is
truthy but is not one of the status strings. -/
inductive StatusVal where
  | str (s : String)
  | protoMember (name : String)
deriving Repr, DecidableEq

/-- The property names every object literal inherits from
`Object.prototype`; bracket lookup on `statusMap` with one of these keys
yields the truthy inherited member instead of `undefined`. -/
def objectProtoProps : List String :=
  ["constructor", "hasOwnProperty", "isPrototypeOf", "propertyIsEnumerable",
   "toLocaleString", "toString", "valueOf",
   "__defineGetter__", "__defineSetter__", "__lookupGetter__", "__lookupSetter__",
   "__proto__"]

/-- JS bracket lookup `statusMap[eventType]`: own properties first, then
the prototype chain (`Object.prototype`). -/
def lookupEvent (e : String) : Option StatusVal :=
  match statusMap.find? (fun kv => kv.1 == e) with
  | some kv => some (.str kv.2)
  | none => if e ∈ objectProtoProps then some (.protoMember e) else none

/-- JavaScript truthiness of an optional `StatusVal`: functions and
objects are truthy, a string is truthy when nonempty. -/
def truthyVal : Option StatusVal → Bool
  | none => false
  | some (.str s) => decide (s ≠ "")
  | some (.protoMember _) => true

/-- The JavaScript `a || d` idiom on an optional `StatusVal`. -/
def jsOrVal (o : Option StatusVal) (d : StatusVal) : StatusVal :=
  match o with
  | some v => if truthyVal (some v) then v else d
  | none => d

/-- `statusMap[eventType] || 'UNKNOWN'` (line 81), including the case of a
missing `event_type`. -/
def statusOf (eventType : Option String) : StatusVal :=
  jsOrVal (eventType.bind lookupEvent) (.str "UNKNOWN")

/-- The order record stored by `orders.set` (lines 84–95). -/
structure OrderRec where
  id : String
  status : StatusVal
  eventType : Option String
  amount : Option String
  timestamp : Option String
  payer : Option String
  items : Option String
  captureId : Option String
  orderId : Option String
deriving Repr, DecidableEq

/-- `webhookData.resource || {}` (line 60). -/
def payloadResource (p : WebhookPayload) : Resource :=
  p.resource.getD {}

/-- The storage key the handler resolves for a payload at time `now`. -/
def resolvedId (p : WebhookPayload) (now : Nat) : String :=
  extractOrderId (payloadResource p) now

/-- The record built by the webhook handler (lines 84–95).
`payer` is `resource.payer || webhookData.resource?.payer` (line 91). -/
def mkOrderRec (p : WebhookPayload) (now : Nat) : OrderRec :=
  let r := payloadResource p
  { id := resolvedId p now
    status := statusOf p.event_type
    eventType := p.event_type
    amount := r.amount
    timestamp := p.create_time
    payer := if truthyStr r.payer then r.payer else p.resource.bind (·.payer)
    items := firstUnitItems r
    captureId := r.id
    orderId := relatedOrderId r }

/-- The in-memory `orders` `Map` (line 24), as an association list in
insertion order. -/
abbrev Table := List (String × OrderRec)

/-- The empty table the process starts with. -/
def emptyTable : Table := []

/-- `Map.prototype.set`: replace the value in place when the key is
already present, otherwise append the new entry. -/
def mapSet (k : String) (v : OrderRec) : Table → Table
  | [] => [(k, v)]
  | (k', v') :: rest => if k' = k then (k, v) :: rest else (k', v') :: mapSet k v rest

/-- `Map.prototype.get`. -/
def mapGet (k : String) : Table → Option OrderRec
  | [] => none
  | (k', v') :: rest => if k' = k then some v' else mapGet k rest

/-- Number of entries stored under a key. -/
def countKey (k : String) (tbl : Table) : Nat :=
  (tbl.filter (fun e => e.1 == k)).length

/-- The table's keys are pairwise distinct (true of every real `Map`). -/
def nodupKeys (tbl : Table) : Prop :=
  (tbl.map (·.1)).Nodup

/-- The PayPal signature headers inspected by `verifyPayPalWebhook`
(lines 32–36). -/
structure PayPalHeaders where
  transmissionId : Option String := none
  certUrl : Option String := none
  authAlgo : Option String := none
  transmissionSig : Option String := none
  transmissionTime : Option String := none
deriving Repr, DecidableEq

/-- The presence summary `verifyPayPalWebhook` logs (lines 38–42). -/
def headerPresence (h : PayPalHeaders) : List (String × Bool) :=
  [("transmissionId", truthyStr h.transmissionId),
   ("certUrl", truthyStr h.certUrl),
   ("authAlgo", truthyStr h.authAlgo)]

/-- `verifyPayPalWebhook` (lines 27–45): inspects the headers, logs their
presence, and returns `true` unconditionally (line 44). -/
def verifyPayPalWebhook (h : PayPalHeaders) : Bool :=
  let _log := headerPresence h
  true

/-- Result of the webhook route: the 200 success body (line 102–108) or
the 500 catch branch (line 112). -/
inductive WebhookResult where
  | success (orderId : String) (eventType : Option String) (processedStatus : StatusVal)
  | serverError
deriving Repr, DecidableEq

/-- HTTP status code of a webhook response. -/
def WebhookResult.statusCode : WebhookResult → Nat
  | .success _ _ _ => 200
  | .serverError => 500

/-- Error message of a webhook response (`{error: 'Internal server error'}`). -/
def WebhookResult.errorMessage : WebhookResult → Option String
  | .success _ _ _ => none
  | .serverError => some "Internal server error"

/-- The `POST /api/webhook/paypal` handler body (lines 48–109) on a parsed
object body. Over object bodies every access in the `try` block is guarded
(`|| {}` on line 60 and optional chaining on lines 64–66, 91–94), so the
embedding is total and never reaches the catch branch; the catch branch
itself is `webhookCatch` below. The verification result is computed
(line 51) but gates nothing except a log line (lines 52–54). -/
def handleWebhook (hdr : PayPalHeaders) (p : WebhookPayload) (now : Nat)
    (tbl : Table) : WebhookResult × Table :=
  let _isValid := verifyPayPalWebhook hdr
  let oid := resolvedId p now
  (.success oid p.event_type (statusOf p.event_type), mapSet oid (mkOrderRec p now) tbl)

/-- The catch branch of the webhook route (lines 110–113): respond 500 with
the generic error body, leaving the table untouched. -/
def webhookCatch (tbl : Table) : WebhookResult × Table :=
  (.serverError, tbl)

/-- Table transition of one ingested webhook. -/
def webhookStep (p : WebhookPayload) (now : Nat) (tbl : Table) : Table :=
  (handleWebhook {} p now tbl).2

/-- Table reached after ingesting a sequence of webhooks, each with its
`Date.now()` value. -/
def processEvents : List (WebhookPayload × Nat) → Table → Table
  | [], tbl => tbl
  | pe :: rest, tbl => processEvents rest (webhookStep pe.1 pe.2 tbl)

/-- Result of `GET /api/orders/:orderId` (lines 117–126). -/
inductive GetOrderResult where
  | found (record : OrderRec)
  | notFound
deriving Repr, DecidableEq

/-- HTTP status code of an order lookup response. -/
def GetOrderResult.statusCode : GetOrderResult → Nat
  | .found _ => 200
  | .notFound => 404

/-- Error message of an order lookup response (`{error: 'Order not found'}`). -/
def GetOrderResult.errorMessage : GetOrderResult → Option String
  | .found _ => none
  | .notFound => some "Order not found"

/-- The `GET /api/orders/:orderId` handler (lines 117–126). -/
def handleGetOrder (orderId : String) (tbl : Table) : GetOrderResult × Table :=
  match mapGet orderId tbl with
  | none => (.notFound, tbl)
  | some o => (.found o, tbl)

/-- The `GET /api/orders` handler (lines 129–132): all stored records. -/
def handleListOrders (tbl : Table) : List OrderRec × Table :=
  (tbl.map (·.2), tbl)

/-- The four credential environment values loaded at startup (lines 6–9). -/
structure Env where
  sandboxClientId : Option String := none
  sandboxClientSecret : Option String := none
  liveClientId : Option String := none
  liveClientSecret : Option String := none
deriving Repr, DecidableEq

/-- Presence mark used by the credentials endpoint (lines 138–143). -/
def loadedMark (v : Option String) : String :=
  if truthyStr v then "Loaded" else "Missing"

/-- Body of `GET /api/verify-credentials` (lines 136–145): one presence
mark per credential value, nested sandbox/live. -/
structure CredentialsBody where
  sandboxClientId : String
  sandboxClientSecret : String
  liveClientId : String
  liveClientSecret : String
deriving Repr, DecidableEq

/-- The `GET /api/verify-credentials` handler (lines 135–146). -/
def handleVerifyCredentials (env : Env) (tbl : Table) : CredentialsBody × Table :=
  ({ sandboxClientId := loadedMark env.sandboxClientId
     sandboxClientSecret := loadedMark env.sandboxClientSecret
     liveClientId := loadedMark env.liveClientId
     liveClientSecret := loadedMark env.liveClientSecret }, tbl)

/-- Body of `GET /api/health` (lines 150–161). `timestamp` is the wall
clock, passed in as a parameter. -/
structure HealthBody where
  status : String
  service : String
  timestamp : String
  environment : String
  totalOrders : Nat
  version : String
  sandboxLoaded : Bool
  liveLoaded : Bool
deriving Repr, DecidableEq

/-- The `GET /api/health` handler (lines 149–162). -/
def handleHealth (env : Env) (nodeEnv : Option String) (ts : String)
    (tbl : Table) : HealthBody × Table :=
  ({ status := "healthy"
     service := "King Solarman Backend"
     timestamp := ts
     environment := jsOrStr nodeEnv "development"
     totalOrders := tbl.length
     version := "1.1.0"
     sandboxLoaded := truthyStr env.sandboxClientId
     liveLoaded := truthyStr env.liveClientId }, tbl)

/-- `id → latest record` well-formedness: every stored record carries the
key it is stored under. -/
def tableWF (tbl : Table) : Prop :=
  ∀ k r, mapGet k tbl = some r → r.id = k

/-- A webhook body with no fields at all (in particular no `resource`). -/
def pEmpty : WebhookPayload := {}

/-- A capture-denied payload carrying only a top-level resource id. -/
def pDenied : WebhookPayload :=
  { event_type := some "PAYMENT.CAPTURE.DENIED"
    resource := some { id := some "CAP-1" } }

/-- A payload whose event type is the name of a property inherited from
`Object.prototype` rather than one of the five `statusMap` keys. -/
def pProto : WebhookPayload :=
  { event_type := some "toString"
    resource := some { id := some "CAP-9" } }

/-- An order-approved payload identified by a related order id. -/
def pApproved : WebhookPayload :=
  { event_type := some "CHECKOUT.ORDER.APPROVED"
    resource :=
      some { supplementary_data := some { related_ids := some { order_id := some "ORD-1" } } } }

/-- A capture-completed payload carrying the same related order id as
`pApproved` together with a capture id and passthrough data. -/
def pCompleted : WebhookPayload :=
  { event_type := some "PAYMENT.CAPTURE.COMPLETED"
    create_time := some "2024-01-01T00:00:00Z"
    resource := some
      { id := some "CAP-2"
        amount := some "100.00 USD"
        supplementary_data := some { related_ids := some { order_id := some "ORD-1" } }
        purchase_units := some
          [{ payments := some { captures := some [{ id := some "CAP-2" }] } }] } }

/-! ### Helper lemmas about the table model -/

theorem mapGet_mapSet_self (k : String) (v : OrderRec) (tbl : Table) :
    mapGet k (mapSet k v tbl) = some v := by
  induction tbl with
  | nil => simp [mapSet, mapGet]
  | cons hd tl ih =>
    by_cases h : hd.1 = k
    · simp [mapSet, mapGet, h]
    · simp [mapSet, mapGet, h, ih]

theorem mapGet_mapSet_ne (k k' : String) (v : OrderRec) (tbl : Table)
    (h : k' ≠ k) : mapGet k' (mapSet k v tbl) = mapGet k' tbl := by
  induction tbl with
  | nil => simp [mapSet, mapGet, Ne.symm h]
  | cons hd tl ih =>
    by_cases hk : hd.1 = k
    · simp [mapSet, mapGet, hk, Ne.symm h]
    · by_cases hk' : hd.1 = k'
      · simp [mapSet, mapGet, hk, hk', h]
      · simp [mapSet, mapGet, hk, hk', ih]

theorem mapSet_keys (k : String) (v : OrderRec) (tbl : Table) :
    (mapSet k v tbl).map (·.1) =
      if k ∈ tbl.map (·.1) then tbl.map (·.1) else tbl.map (·.1) ++ [k] := by
  induction tbl with
  | nil => simp [mapSet]
  | cons hd tl ih =>
    by_cases h : hd.1 = k
    · simp [mapSet, h]
    · have hne : ¬k = hd.1 := fun e => h e.symm
      by_cases hm : k ∈ tl.map (·.1)
      · simp [mapSet, h, ih, hm, hne]
      · simp [mapSet, h, ih, hm, hne]

theorem nodupKeys_mapSet (k : String) (v : OrderRec) (tbl : Table)
    (h : nodupKeys tbl) : nodupKeys (mapSet k v tbl) := by
  unfold nodupKeys at h ⊢
  rw [mapSet_keys]
  by_cases hm : k ∈ tbl.map (·.1)
  · simpa [hm] using h
  · rw [if_neg hm, List.nodup_append]
    refine ⟨h, List.nodup_singleton k, ?_⟩
    intro a ha hak
    rw [List.mem_singleton] at hak
    exact hm (hak ▸ ha)

theorem countKey_eq_one_of_nodup (k : String) (tbl : Table)
    (hn : nodupKeys tbl) (hm : (mapGet k tbl).isSome) : countKey k tbl = 1 := by
  induction tbl with
  | nil => simp [mapGet] at hm
  | cons hd tl ih =>
    have hn' : hd.1 ∉ tl.map (·.1) ∧ (tl.map (·.1)).Nodup := by
      simpa [nodupKeys] using hn
    by_cases h : hd.1 = k
    · have htl : tl.filter (fun e => e.1 == k) = [] := by
        rw [List.filter_eq_nil_iff]
        intro e he
        simp only [beq_iff_eq]
        intro hek
        have hmem : e.1 ∈ tl.map (·.1) := List.mem_map_of_mem (·.1) he
        rw [hek, ← h] at hmem
        exact hn'.1 hmem
      unfold countKey
      rw [List.filter_cons]
      simp [h, htl]
    · have hm' : (mapGet k tl).isSome := by simpa [mapGet, h] using hm
      have hc := ih hn'.2 hm'
      unfold countKey at hc ⊢
      rw [List.filter_cons]
      simp [h, hc]

theorem nodupKeys_webhookStep (p : WebhookPayload) (now : Nat) (tbl : Table)
    (h : nodupKeys tbl) : nodupKeys (webhookStep p now tbl) :=
  nodupKeys_mapSet _ _ _ h

theorem nodupKeys_processEvents (events : List (WebhookPayload × Nat))
    (tbl : Table) (h : nodupKeys tbl) : nodupKeys (processEvents events tbl) := by
  induction events generalizing tbl with
  | nil => simpa [processEvents] using h
  | cons pe rest ih => exact ih _ (nodupKeys_webhookStep pe.1 pe.2 tbl h)

theorem mapGet_processEvents_isSome (events : List (WebhookPayload × Nat))
    (tbl : Table) (k : String) :
    (mapGet k (processEvents events tbl)).isSome =
      ((mapGet k tbl).isSome || events.any (fun pe => resolvedId pe.1 pe.2 == k)) := by
  induction events generalizing tbl with
  | nil => simp [processEvents]
  | cons pe rest ih =>
    rw [processEvents, ih]
    by_cases h : resolvedId pe.1 pe.2 = k
    · subst h
      simp [webhookStep, handleWebhook, mapGet_mapSet_self]
    · have hb : (resolvedId pe.1 pe.2 == k) = false := beq_eq_false_iff_ne.mpr h
      simp [webhookStep, handleWebhook,
        mapGet_mapSet_ne (resolvedId pe.1 pe.2) k (mkOrderRec pe.1 pe.2) tbl (Ne.symm h), hb]

theorem charOfNat_digit_isDigit (n : Nat) : (Char.ofNat (48 + n % 10)).isDigit := by
  have h : n % 10 < 10 := Nat.mod_lt _ (by omega)
  interval_cases h : n % 10 <;> decide

theorem natDecimalChars_digits (n : Nat) (acc : List Char)
    (hacc : ∀ c ∈ acc, c.isDigit) : ∀ c ∈ natDecimalChars n acc, c.isDigit := by
  induction n using Nat.strong_induction_on generalizing acc with
  | _ n ih =>
    rw [natDecimalChars]
    by_cases h : n < 10
    · simp only [h, if_pos]
      intro c hc
      rcases List.mem_cons.mp hc with hc | hc
      · exact hc ▸ charOfNat_digit_isDigit n
      · exact hacc c hc
    · simp only [h, if_neg, not_false_iff]
      refine ih (n / 10) (Nat.div_lt_self (by omega) (by omega)) _ ?_
      intro c hc
      rcases List.mem_cons.mp hc with hc | hc
      · exact hc ▸ charOfNat_digit_isDigit n
      · exact hacc c hc

theorem natDecimalStr_digits (n : Nat) : ∀ c ∈ (natDecimalStr n).data, c.isDigit :=
  natDecimalChars_digits n [] (by simp)

theorem loadedMark_eq_iff (v : Option String) :
    loadedMark v = "Loaded" ↔ truthyStr v = true := by
  cases hv : truthyStr v <;> simp [loadedMark, hv]

/-! ### Claims -/

/-- C6: the three read operations `GET /api/orders/:orderId`,
`GET /api/orders` and `GET /api/health` never modify the order table: for
every table state and request, the table after handling equals the table
before. -/
theorem claim6_queries_never_mutate :
    ∀ (tbl : Table) (oid : String) (env : Env) (nodeEnv : Option String) (ts : String),
      (handleGetOrder oid tbl).2 = tbl ∧
      (handleListOrders tbl).2 = tbl ∧
      (handleHealth env nodeEnv ts tbl).2 = tbl := by
  intro tbl oid env nodeEnv ts
  refine ⟨?_, rfl, rfl⟩
  unfold handleGetOrder
  cases mapGet oid tbl <;> rfl

/-- C7: signature verification is a no-op: whatever PayPal headers are
present or absent, `verifyPayPalWebhook` returns `true`, and the webhook
handler's outcome does not depend on the headers at all, so the
verification result never causes a webhook to be rejected. -/
theorem claim7_verification_noop :
    ∀ (h h' : PayPalHeaders) (p : WebhookPayload) (now : Nat) (tbl : Table),
      verifyPayPalWebhook h = true ∧
      handleWebhook h p now tbl = handleWebhook h' p now tbl := by
  intro h h' p now tbl
  exact ⟨rfl, rfl⟩

/-- C8: `GET /api/verify-credentials` reports, for each of the four
credential environment values, whether that value is set (set meaning a
truthy, i.e. nonempty, string, as tested by the source's conditionals),
and leaves the table untouched (the route always responds 200). -/
theorem claim8_verify_credentials :
    ∀ (env : Env) (tbl : Table),
      ((handleVerifyCredentials env tbl).1.sandboxClientId = "Loaded" ↔
        truthyStr env.sandboxClientId = true) ∧
      ((handleVerifyCredentials env tbl).1.sandboxClientSecret = "Loaded" ↔
        truthyStr env.sandboxClientSecret = true) ∧
      ((handleVerifyCredentials env tbl).1.liveClientId = "Loaded" ↔
        truthyStr env.liveClientId = true) ∧
      ((handleVerifyCredentials env tbl).1.liveClientSecret = "Loaded" ↔
        truthyStr env.liveClientSecret = true) ∧
      (handleVerifyCredentials env tbl).2 = tbl := by
  intro env tbl
  exact ⟨loadedMark_eq_iff _, loadedMark_eq_iff _, loadedMark_eq_iff _,
    loadedMark_eq_iff _, rfl⟩

/-- Counterexample to C2 as stated: `toString` is not one of the five
`statusMap` keys, yet ingesting a webhook with that event type does not
store `UNKNOWN` — bracket lookup finds the member `statusMap` inherits
from `Object.prototype`, which is truthy, so that inherited value is
stored as the status. -/
theorem claim2_counterexample :
    "toString" ∉ statusMap.map (·.1) ∧
    pProto.event_type = some "toString" ∧
    mapGet (resolvedId pProto 0) (webhookStep pProto 0 emptyTable) =
      some (mkOrderRec pProto 0) ∧
    (mkOrderRec pProto 0).status = StatusVal.protoMember "toString" ∧
    (mkOrderRec pProto 0).status ≠ StatusVal.str "UNKNOWN" := by
  refine ⟨by decide, rfl, by decide, by decide, by decide⟩

/-- C2 amended: for each of the five event types in `statusMap` the
stored record's status equals the mapped value (`COMPLETED`, `PENDING`,
`DENIED`, `APPROVED`, `COMPLETED` respectively); for every other
event-type string the stored status is `UNKNOWN`, except when the string
is the name of a property inherited from `Object.prototype`
(`constructor`, `toString`, `__proto__`, …), in which case the truthy
inherited member is stored as the status instead. -/
theorem claim2_status_normalization :
    ∀ (p : WebhookPayload) (now : Nat) (tbl : Table) (e : String),
      p.event_type = some e →
      ∃ r, mapGet (resolvedId p now) (webhookStep p now tbl) = some r ∧
        (e = "PAYMENT.CAPTURE.COMPLETED" → r.status = .str "COMPLETED") ∧
        (e = "PAYMENT.CAPTURE.PENDING" → r.status = .str "PENDING") ∧
        (e = "PAYMENT.CAPTURE.DENIED" → r.status = .str "DENIED") ∧
        (e = "CHECKOUT.ORDER.APPROVED" → r.status = .str "APPROVED") ∧
        (e = "CHECKOUT.ORDER.COMPLETED" → r.status = .str "COMPLETED") ∧
        (e ∉ statusMap.map (·.1) → e ∈ objectProtoProps →
          r.status = .protoMember e) ∧
        (e ∉ statusMap.map (·.1) → e ∉ objectProtoProps →
          r.status = .str "UNKNOWN") := by
  intro p now tbl e he
  have hstat : (mkOrderRec p now).status = statusOf (some e) := by
    simp [mkOrderRec, he]
  have hfind : e ∉ statusMap.map (·.1) →
      statusMap.find? (fun kv => kv.1 == e) = none := by
    intro hne
    rw [List.find?_eq_none]
    intro kv hkv
    simp only [beq_iff_eq]
    intro hkve
    exact hne (hkve ▸ List.mem_map_of_mem (·.1) hkv)
  refine ⟨mkOrderRec p now, mapGet_mapSet_self _ _ _, ?_, ?_, ?_, ?_, ?_, ?_, ?_⟩
  · intro hE; rw [hstat, hE]; decide
  · intro hE; rw [hstat, hE]; decide
  · intro hE; rw [hstat, hE]; decide
  · intro hE; rw [hstat, hE]; decide
  · intro hE; rw [hstat, hE]; decide
  · intro hne hproto
    rw [hstat]
    simp [statusOf, lookupEvent, hfind hne, hproto, jsOrVal, truthyVal]
  · intro hne hproto
    rw [hstat]
    simp [statusOf, lookupEvent, hfind hne, hproto, jsOrVal, truthyVal]

/-- Witness for the amended C2 at a concrete denied-capture payload. -/
theorem claim2_status_normalization_witness :
    ∃ r, mapGet (resolvedId pDenied 0) (webhookStep pDenied 0 emptyTable) = some r ∧
      r.status = StatusVal.str "DENIED" := by
  obtain ⟨r, hr, _, _, hd, _⟩ :=
    claim2_status_normalization pDenied 0 emptyTable "PAYMENT.CAPTURE.DENIED" rfl
  exact ⟨r, hr, hd rfl⟩

/-- C1: the storage key is resolved by strict priority: the related order
id when present, else the first capture id when present, else
`resource.id` when present, else `unknown_` followed by the decimal digits
of the current epoch milliseconds, under which the record is retrievable
via `GET /api/orders/:orderId`. Presence of a value is its JavaScript
truthiness — the traversal yields a nonempty string — exactly as tested by
the source's conditionals; in particular the first conjunct shows that a
present related order id wins even when a capture id is also present. -/
theorem claim1_order_id_priority :
    ∀ (p : WebhookPayload) (now : Nat) (tbl : Table),
      (truthyStr (relatedOrderId (payloadResource p)) = true →
        resolvedId p now = (relatedOrderId (payloadResource p)).getD "") ∧
      (truthyStr (relatedOrderId (payloadResource p)) = false →
        truthyStr (firstCaptureId (payloadResource p)) = true →
        resolvedId p now = (firstCaptureId (payloadResource p)).getD "") ∧
      (truthyStr (relatedOrderId (payloadResource p)) = false →
        truthyStr (firstCaptureId (payloadResource p)) = false →
        truthyStr (payloadResource p).id = true →
        resolvedId p now = (payloadResource p).id.getD "") ∧
      (truthyStr (relatedOrderId (payloadResource p)) = false →
        truthyStr (firstCaptureId (payloadResource p)) = false →
        truthyStr (payloadResource p).id = false →
        resolvedId p now = "unknown_" ++ natDecimalStr now ∧
        (natDecimalStr now).data.all Char.isDigit = true ∧
        (handleGetOrder (resolvedId p now) (webhookStep p now tbl)).1 =
          .found (mkOrderRec p now)) := by
  intro p now tbl
  refine ⟨?_, ?_, ?_, ?_⟩
  · intro h1
    simp [resolvedId, extractOrderId, h1]
  · intro h1 h2
    simp [resolvedId, extractOrderId, h1, h2]
  · intro h1 h2 h3
    simp [resolvedId, extractOrderId, h1, h2, jsOrStr, h3]
  · intro h1 h2 h3
    refine ⟨?_, ?_, ?_⟩
    · simp [resolvedId, extractOrderId, h1, h2, jsOrStr, h3]
    · rw [List.all_eq_true]
      intro c hc
      exact natDecimalStr_digits now c hc
    · have hget : mapGet (resolvedId p now) (webhookStep p now tbl) =
          some (mkOrderRec p now) := mapGet_mapSet_self _ _ _
      simp [handleGetOrder, hget]

/-- Witness for C1: the fully unmatched payload `pEmpty` falls through to
the synthesized id, whose digits are decimal, and the stored record is
retrievable under that exact key. -/
theorem claim1_order_id_priority_witness :
    resolvedId pEmpty 5 = "unknown_" ++ natDecimalStr 5 ∧
    (natDecimalStr 5).data.all Char.isDigit = true ∧
    (handleGetOrder (resolvedId pEmpty 5) (webhookStep pEmpty 5 emptyTable)).1 =
      .found (mkOrderRec pEmpty 5) :=
  (claim1_order_id_priority pEmpty 5 emptyTable).2.2.2 (by decide) (by decide) (by decide)

/-- C4: two webhooks resolving to the same id leave exactly one stored
record under that id, and that record is built from the second webhook's
payload alone (full replacement, no history), starting from any table with
distinct keys. -/
theorem claim4_last_write_wins :
    ∀ (p1 p2 : WebhookPayload) (t1 t2 : Nat) (tbl : Table),
      nodupKeys tbl →
      resolvedId p1 t1 = resolvedId p2 t2 →
      mapGet (resolvedId p2 t2) (webhookStep p2 t2 (webhookStep p1 t1 tbl)) =
        some (mkOrderRec p2 t2) ∧
      countKey (resolvedId p2 t2) (webhookStep p2 t2 (webhookStep p1 t1 tbl)) = 1 := by
  intro p1 p2 t1 t2 tbl hn _hsame
  have hget : mapGet (resolvedId p2 t2) (webhookStep p2 t2 (webhookStep p1 t1 tbl)) =
      some (mkOrderRec p2 t2) := mapGet_mapSet_self _ _ _
  refine ⟨hget, ?_⟩
  have hn2 : nodupKeys (webhookStep p2 t2 (webhookStep p1 t1 tbl)) :=
    nodupKeys_webhookStep _ _ _ (nodupKeys_webhookStep _ _ _ hn)
  exact countKey_eq_one_of_nodup _ _ hn2 (by simp [hget])

/-- Witness for C4: `pApproved` then `pCompleted` both resolve to
`ORD-1`; the surviving record is the one built from `pCompleted`. -/
theorem claim4_last_write_wins_witness :
    mapGet (resolvedId pCompleted 1) (webhookStep pCompleted 1 (webhookStep pApproved 0 emptyTable)) =
      some (mkOrderRec pCompleted 1) ∧
    countKey (resolvedId pCompleted 1) (webhookStep pCompleted 1 (webhookStep pApproved 0 emptyTable)) = 1 :=
  claim4_last_write_wins pApproved pCompleted 0 1 emptyTable (by simp [nodupKeys, emptyTable])
    (by decide)

/-- C5: `GET /api/orders/:orderId` returns 404 with the `Order not found`
body exactly when no processed webhook resolved to that id, and 200 with
the full stored record when one did. -/
theorem claim5_get_order :
    ∀ (events : List (WebhookPayload × Nat)) (oid : String),
      ((∀ pe ∈ events, resolvedId pe.1 pe.2 ≠ oid) →
        (handleGetOrder oid (processEvents events emptyTable)).1 = .notFound ∧
        (handleGetOrder oid (processEvents events emptyTable)).1.statusCode = 404 ∧
        (handleGetOrder oid (processEvents events emptyTable)).1.errorMessage =
          some "Order not found") ∧
      ((∃ pe ∈ events, resolvedId pe.1 pe.2 = oid) →
        ∃ r, mapGet oid (processEvents events emptyTable) = some r ∧
          (handleGetOrder oid (processEvents events emptyTable)).1 = .found r ∧
          (handleGetOrder oid (processEvents events emptyTable)).1.statusCode = 200) := by
  intro events oid
  have hiso := mapGet_processEvents_isSome events emptyTable oid
  constructor
  · intro hall
    have hany : events.any (fun pe => resolvedId pe.1 pe.2 == oid) = false := by
      rw [List.any_eq_false]
      intro pe hpe
      simpa using hall pe hpe
    have hnone : mapGet oid (processEvents events emptyTable) = none := by
      have hfalse : (mapGet oid (processEvents events emptyTable)).isSome = false := by
        rw [hiso, hany]
        simp [emptyTable, mapGet]
      exact Option.not_isSome_iff_eq_none.mp (by simp [hfalse])
    refine ⟨?_, ?_, ?_⟩ <;>
      simp [handleGetOrder, hnone, GetOrderResult.statusCode, GetOrderResult.errorMessage]
  · intro hex
    have hany : events.any (fun pe => resolvedId pe.1 pe.2 == oid) = true := by
      rw [List.any_eq_true]
      obtain ⟨pe, hpe, heq⟩ := hex
      exact ⟨pe, hpe, by simpa using heq⟩
    have hsome : (mapGet oid (processEvents events emptyTable)).isSome = true := by
      rw [hiso, hany]
      simp
    obtain ⟨r, hr⟩ := Option.isSome_iff_exists.mp hsome
    exact ⟨r, hr, by simp [handleGetOrder, hr],
      by simp [handleGetOrder, hr, GetOrderResult.statusCode]⟩

/-- Witness for C5: before any webhook for `ORD-1`, the lookup is a 404;
after ingesting `pApproved`, the lookup is a 200. -/
theorem claim5_get_order_witness :
    ((handleGetOrder "ORD-1" (processEvents [] emptyTable)).1 = .notFound ∧
      (handleGetOrder "ORD-1" (processEvents [] emptyTable)).1.statusCode = 404 ∧
      (handleGetOrder "ORD-1" (processEvents [] emptyTable)).1.errorMessage =
        some "Order not found") ∧
    (∃ r, mapGet "ORD-1" (processEvents [(pApproved, 0)] emptyTable) = some r ∧
      (handleGetOrder "ORD-1" (processEvents [(pApproved, 0)] emptyTable)).1 = .found r ∧
      (handleGetOrder "ORD-1" (processEvents [(pApproved, 0)] emptyTable)).1.statusCode = 200) :=
  ⟨(claim5_get_order [] "ORD-1").1 (by simp),
   (claim5_get_order [(pApproved, 0)] "ORD-1").2 ⟨(pApproved, 0), by simp, by decide⟩⟩

/-- C9: every key of the order table maps to a record whose `id` field
equals that key: the invariant holds for the empty initial table, is
preserved by every webhook ingestion, and is preserved by every query
(which returns the table unchanged). -/
theorem claim9_id_equals_key :
    tableWF emptyTable ∧
    (∀ (p : WebhookPayload) (now : Nat) (tbl : Table),
      tableWF tbl → tableWF (webhookStep p now tbl)) ∧
    (∀ (tbl : Table) (oid : String) (env : Env) (nodeEnv : Option String) (ts : String),
      tableWF tbl →
      tableWF (handleGetOrder oid tbl).2 ∧
      tableWF (handleListOrders tbl).2 ∧
      tableWF (handleHealth env nodeEnv ts tbl).2) := by
  refine ⟨?_, ?_, ?_⟩
  · intro k r hget
    simp [emptyTable, mapGet] at hget
  · intro p now tbl h k r hget
    by_cases hk : k = resolvedId p now
    · rw [show webhookStep p now tbl = mapSet (resolvedId p now) (mkOrderRec p now) tbl from rfl,
        hk, mapGet_mapSet_self] at hget
      cases hget
      exact hk.symm
    · rw [show webhookStep p now tbl = mapSet (resolvedId p now) (mkOrderRec p now) tbl from rfl,
        mapGet_mapSet_ne _ _ _ _ hk] at hget
      exact h k r hget
  · intro tbl oid env nodeEnv ts h
    refine ⟨?_, h, h⟩
    unfold handleGetOrder
    cases mapGet oid tbl <;> exact h

/-- Witness for C9: the invariant transported to the table holding the
single record ingested from `pDenied`. -/
theorem claim9_id_equals_key_witness :
    tableWF (webhookStep pDenied 3 emptyTable) :=
  claim9_id_equals_key.2.1 pDenied 3 emptyTable claim9_id_equals_key.1

/-- C10: for every parsed object body — including the empty object and
bodies missing `event_type` or `resource` — the webhook handler's error
branch is unreachable: the response is the 200 success body and exactly
one record is upserted (the resolved key maps to the new record and every
other key is untouched). -/
theorem claim10_error_branch_unreachable :
    ∀ (hdr : PayPalHeaders) (p : WebhookPayload) (now : Nat) (tbl : Table),
      (handleWebhook hdr p now tbl).1 =
        .success (resolvedId p now) p.event_type (statusOf p.event_type) ∧
      (handleWebhook hdr p now tbl).1.statusCode = 200 ∧
      (handleWebhook hdr p now tbl).1 ≠ .serverError ∧
      (handleWebhook hdr p now tbl).2 =
        mapSet (resolvedId p now) (mkOrderRec p now) tbl ∧
      mapGet (resolvedId p now) (handleWebhook hdr p now tbl).2 =
        some (mkOrderRec p now) ∧
      (∀ k, k ≠ resolvedId p now →
        mapGet k (handleWebhook hdr p now tbl).2 = mapGet k tbl) := by
  intro hdr p now tbl
  refine ⟨rfl, rfl, by simp [handleWebhook], rfl, mapGet_mapSet_self _ _ _, ?_⟩
  intro k hk
  exact mapGet_mapSet_ne _ _ _ _ hk

/-- Witness for C10: the empty object body is ingested with a 200 and
touches no other key. -/
theorem claim10_error_branch_unreachable_witness :
    (handleWebhook {} pEmpty 7 emptyTable).1.statusCode = 200 ∧
    mapGet "other" (handleWebhook {} pEmpty 7 emptyTable).2 = mapGet "other" emptyTable :=
  ⟨(claim10_error_branch_unreachable {} pEmpty 7 emptyTable).2.1,
   (claim10_error_branch_unreachable {} pEmpty 7 emptyTable).2.2.2.2.2 "other" (by decide)⟩

/-- Counterexample to C3 as stated: the claim's own example of a malformed
body — one missing `resource` entirely — does not produce a 500 with an
unchanged table; the handler succeeds with a 200 (no error message) and
inserts one record. -/
theorem claim3_counterexample :
    pEmpty.resource = none ∧
    (handleWebhook {} pEmpty 5 emptyTable).1.statusCode = 200 ∧
    (handleWebhook {} pEmpty 5 emptyTable).1.errorMessage = none ∧
    (handleWebhook {} pEmpty 5 emptyTable).2.length = 1 :=
  ⟨rfl, rfl, rfl, rfl⟩

/-- C3 amended: an object body missing `resource` does not crash the
process, but it is handled successfully — a 200 with the success body and
one record upserted under the synthesized id — rather than rejected; the
catch branch (the only source of the generic 500
`Internal server error` body) leaves the table unchanged whenever taken. -/
theorem claim3_amended_malformed_body :
    ∀ (hdr : PayPalHeaders) (p : WebhookPayload) (now : Nat) (tbl : Table),
      p.resource = none →
      (handleWebhook hdr p now tbl).1.statusCode = 200 ∧
      (handleWebhook hdr p now tbl).1.errorMessage = none ∧
      (handleWebhook hdr p now tbl).2 =
        mapSet ("unknown_" ++ natDecimalStr now) (mkOrderRec p now) tbl ∧
      (webhookCatch tbl).1.statusCode = 500 ∧
      (webhookCatch tbl).1.errorMessage = some "Internal server error" ∧
      (webhookCatch tbl).2 = tbl := by
  intro hdr p now tbl hres
  have hid : resolvedId p now = "unknown_" ++ natDecimalStr now := by
    simp [resolvedId, payloadResource, hres, extractOrderId, relatedOrderId,
      firstCaptureId, truthyStr, jsOrStr]
  refine ⟨rfl, rfl, ?_, rfl, rfl, rfl⟩
  rw [show (handleWebhook hdr p now tbl).2 =
    mapSet (resolvedId p now) (mkOrderRec p now) tbl from rfl, hid]

/-- Witness for the amended C3 at the concrete `pEmpty` body. -/
theorem claim3_amended_malformed_body_witness :
    (handleWebhook {} pEmpty 9 emptyTable).1.statusCode = 200 ∧
    (webhookCatch emptyTable).2 = emptyTable :=
  ⟨(claim3_amended_malformed_body {} pEmpty 9 emptyTable rfl).1,
   (claim3_amended_malformed_body {} pEmpty 9 emptyTable rfl).2.2.2.2.2⟩

end KingSolarman
